import Mathlib

/-!
Verification of `quakes.py` (class `QuakeQuery`).

The program queries a seismic-event web service for earthquakes within a
radius of a configured center, parses the pipe-delimited response into rows,
derives `DateTime`, `Timestamp` and `Distance` columns, and keeps only rows
whose haversine distance to the center is below the radius.

Embedding choices:
* Degrees, meters and the DataFrame's float columns are modelled as real
  numbers; pandas `datetime64[ns]` values are modelled as integer nanoseconds
  since the Unix epoch.
* The DataFrame is modelled as a `List` of row structures in response order.
* The external libraries (`requests`, `pandas.read_csv`, `pandas.to_datetime`)
  are modelled as inputs: the single HTTP GET's outcome is a parameter of
  `query`, and a 200 response carries its already-parsed row table.
* `self.data` (the instance attribute holding the last result) is explicit
  state: `query` takes its previous value and reports its new value.
-/

namespace QuakeQuery

/-- Class attribute `m_per_deg = 40075000 / 360`: earth circumference in
meters per degree (Python 3 true division). -/
noncomputable def m_per_deg : ℝ := 40075000 / 360

/-- Class attribute `quakes`: the static table of predefined earthquake
windows near LNGS, mapping a name to a `(starttime, endtime)` pair. -/
def quakes : List (String × String × String) :=
  [("2009", "2009-04-05T00:00:00", "2009-04-12T00:00:00"),
   ("august_2016", "2016-08-23T00:00:00", "2016-09-07T00:00:00"),
   ("october_2016", "2016-10-01T00:00:00", "2016-10-30T00:00:00"),
   ("january_2017", "2017-01-18T00:00:00", "2017-01-25T00:00:00")]

/-- The constructor arguments retained on the instance: center latitude and
longitude in degrees, radius in meters. -/
structure QueryConfig where
  latitude : ℝ
  longitude : ℝ
  radius : ℝ

/-- `calc_bounding_box` (lines 42-46): `delta = radius / m_per_deg`;
`lat_range = (latitude - delta, latitude + delta)`; then
`delta /= cos(pi * latitude / 180)` and
`lon_range = (longitude - delta, longitude + delta)`.
Returns `(lat_range, lon_range)`. -/
noncomputable def calc_bounding_box (cfg : QueryConfig) : (ℝ × ℝ) × (ℝ × ℝ) :=
  let delta := cfg.radius / m_per_deg
  let latr := (cfg.latitude - delta, cfg.latitude + delta)
  let delta2 := delta / Real.cos (Real.pi * cfg.latitude / 180)
  (latr, (cfg.longitude - delta2, cfg.longitude + delta2))

/-- The instance attribute `self.lat_range` set by `calc_bounding_box`. -/
noncomputable def lat_range (cfg : QueryConfig) : ℝ × ℝ := (calc_bounding_box cfg).1

/-- The instance attribute `self.lon_range` set by `calc_bounding_box`. -/
noncomputable def lon_range (cfg : QueryConfig) : ℝ × ℝ := (calc_bounding_box cfg).2

/-- `math.radians`: degrees to radians. -/
noncomputable def radians (x : ℝ) : ℝ := x * Real.pi / 180

/-- Earth mean radius in meters (`gpxpy.geo.EARTH_RADIUS = 6371 * 1000`). -/
noncomputable def EARTH_RADIUS : ℝ := 6371 * 1000

/-- Modelled from the spec: `gpxpy.geo.haversine_distance` is an external
dependency (its source is not part of this repository); section 4.4 of the
spec describes it as the standard haversine formula with Earth mean radius,
returning the great-circle distance in meters between two lat/lon points. -/
noncomputable def haversine_distance
    (latitude_1 longitude_1 latitude_2 longitude_2 : ℝ) : ℝ :=
  let d_lon := radians (longitude_1 - longitude_2)
  let lat1 := radians latitude_1
  let lat2 := radians latitude_2
  let d_lat := lat1 - lat2
  let a := Real.sin (d_lat / 2) ^ 2 +
    Real.sin (d_lon / 2) ^ 2 * Real.cos lat1 * Real.cos lat2
  let c := 2 * Real.arcsin (Real.sqrt a)
  EARTH_RADIUS * c

/-- One row of the parsed response table (`pandas.read_csv(..., sep="|")` on
the fdsnws text format). The `Time` column is modelled as the UTC instant it
parses to, in integer nanoseconds since the Unix epoch (`pandas.to_datetime`
and the string form itself are external to the repository). -/
structure RawRow where
  EventID : ℤ
  Time : ℤ
  Latitude : ℝ
  Longitude : ℝ
  Depth : ℝ
  Author : String
  Catalog : String
  Contributor : String
  ContributorID : String
  MagType : String
  Magnitude : ℝ
  MagAuthor : String
  EventLocationName : String

/-- A row after the `query` pipeline: `DateTime` and `Timestamp` derived,
the columns `Author`, `Time`, `Catalog`, `Contributor`, `ContributorID`,
`MagAuthor` dropped, and the `Distance` column attached. -/
structure EventRow where
  EventID : ℤ
  Latitude : ℝ
  Longitude : ℝ
  Depth : ℝ
  MagType : String
  Magnitude : ℝ
  EventLocationName : String
  DateTime : ℤ
  Timestamp : ℤ
  Distance : ℝ

/-- Line 92, `self.data["DateTime"].astype(int) // 10**9`: the datetime as
integer nanoseconds, floor-divided (Python `//` and numpy integer division
round toward negative infinity) by `10 ** 9`. -/
def timestampOfDateTime (ns : ℤ) : ℤ := Int.fdiv ns (10 ^ 9)

/-- Written from the words of the spec for comparison (section 4.3: derive
`Timestamp` as the integer Unix seconds equivalent, truncate, not round):
truncation discards the sub-second part, rounding toward zero. -/
def truncatedUnixSeconds (ns : ℤ) : ℤ := Int.tdiv ns (10 ^ 9)

/-- Lines 89-110 applied to one row: derive `DateTime` from `Time` and
`Timestamp` from `DateTime`, drop the noise columns, and attach `Distance`
as computed by the local `add_distance` helper (haversine distance from the
row's coordinates to the configured center). -/
noncomputable def addColumns (cfg : QueryConfig) (r : RawRow) : EventRow :=
  { EventID := r.EventID
    Latitude := r.Latitude
    Longitude := r.Longitude
    Depth := r.Depth
    MagType := r.MagType
    Magnitude := r.Magnitude
    EventLocationName := r.EventLocationName
    DateTime := r.Time
    Timestamp := timestampOfDateTime r.Time
    Distance := haversine_distance r.Latitude r.Longitude
      cfg.latitude cfg.longitude }

/-- Line 113, `self.data = self.data[self.data["Distance"] < self.radius]`:
keep exactly the rows whose `Distance` is strictly below the radius. -/
noncomputable def cut_on_radius (radius : ℝ) (l : List EventRow) : List EventRow :=
  l.filter fun e => decide (e.Distance < radius)

/-- The whole row pipeline of the 200 branch of `query`: derive columns on
every parsed row, then cut on the radius. -/
noncomputable def processRows (cfg : QueryConfig) (rows : List RawRow) : List EventRow :=
  cut_on_radius cfg.radius (rows.map (addColumns cfg))

/-- A value in the request-parameter dict: Python int or string. -/
inductive PValue where
  | int (n : ℤ)
  | str (s : String)

/-- Zero-pads a numeral below 1000 to three digits. -/
def pad3 (k : ℕ) : String :=
  if k < 10 then "00" ++ toString k
  else if k < 100 then "0" ++ toString k
  else toString k

/-- Python string formatting `"%.3f" % x`: the decimal numeral of `x` with
exactly three fractional digits, rounded to the nearest thousandth (binary
double-precision artifacts of the rounding are out of scope). -/
noncomputable def fmt3 (x : ℝ) : String :=
  let n : ℤ := round (x * 1000)
  (if n < 0 then "-" else "") ++
    toString (n.natAbs / 1000) ++ "." ++ pad3 (n.natAbs % 1000)

/-- Lines 56-71: the `payload` dict passed to `requests.get`, in source
order, built from the (already resolved) dates, the magnitude range, and the
instance's bounding box formatted with `"%.3f"`. -/
noncomputable def payload (start_date end_date : String) (min_mag max_mag : ℤ)
    (latr lonr : ℝ × ℝ) : List (String × PValue) :=
  [("starttime", .str start_date),
   ("endtime", .str end_date),
   ("minmag", .int min_mag),
   ("maxmag", .int max_mag),
   ("mindepth", .int (-10)),
   ("maxdepth", .int 1000),
   ("minlat", .str (fmt3 latr.1)),
   ("maxlat", .str (fmt3 latr.2)),
   ("minlon", .str (fmt3 lonr.1)),
   ("maxlon", .str (fmt3 lonr.2)),
   ("minversion", .int 100),
   ("orderby", .str "time-asc"),
   ("format", .str "text"),
   ("limit", .int 10000)]

/-- Default of the `min_mag` parameter of `query` (line 48). -/
def min_mag_default : ℤ := 2

/-- Default of the `max_mag` parameter of `query` (line 48). -/
def max_mag_default : ℤ := 10

/-- A logger call: `self.logger.error`, `.warning` or `.info`. -/
inductive LogMsg where
  | error (msg : String)
  | warning (msg : String)
  | info (msg : String)

/-- The outcome of the single `requests.get`: either the call raised, or it
returned a response with a status code and a body; for a body in the
expected format the parsed row table is carried directly (parsing is
`pandas.read_csv`, external to the repository). -/
inductive HttpOutcome where
  | raise (e : String)
  | response (status : ℕ) (rows : List RawRow)

/-- Everything observable about one `query` call: the logger calls, how many
HTTP requests were issued, the parameter set sent with them, the value of
`self.data` after the call, the value returned to the caller, and the
uncaught exception, if any, that aborted the call. -/
structure QueryOutcome where
  logs : List LogMsg
  requests : ℕ
  sentParams : List (String × PValue)
  data : Option (List EventRow)
  ret : Option (List EventRow)
  exn : Option String

/-- `QuakeQuery.query` (lines 48-117) as a function of the configuration,
the call arguments, the current UTC time string (substituted when
`end_date = "now"`), the outcome of the single `requests.get`, and the
previous value of `self.data`.

On a transport error the `except` clause only logs the exception; control
then falls through to `if not r.status_code == 200` where `r` was never
bound, so the call aborts with an uncaught `NameError`: `self.data` is never
assigned and nothing is returned. On a non-200 status the error branch logs
and the function ends, implicitly returning `None`, with `self.data`
untouched. On a 200 status the rows are parsed, a warning is logged when at
least 10000 rows came back, the derived columns are added, the radius cut is
applied, and the result is both stored in `self.data` and returned. -/
noncomputable def query (cfg : QueryConfig) (start_date end_date : String)
    (min_mag max_mag : ℤ) (nowStr : String) (net : HttpOutcome)
    (old : Option (List EventRow)) : QueryOutcome :=
  let endd := if end_date = "now" then nowStr else end_date
  let pl := payload start_date endd min_mag max_mag (lat_range cfg) (lon_range cfg)
  match net with
  | .raise e =>
      { logs := [.error e], requests := 1, sentParams := pl,
        data := old, ret := none, exn := some "NameError" }
  | .response status rows =>
      if status ≠ 200 then
        { logs := [.error "Something went wrong:"], requests := 1, sentParams := pl,
          data := old, ret := none, exn := none }
      else
        let warn : List LogMsg :=
          if rows.length ≥ 10000 then
            [.warning "Query limit reached! Select a smaller time/radius/magnitude range."]
          else []
        let final := processRows cfg rows
        { logs := warn ++ [.info "Queried events"], requests := 1, sentParams := pl,
          data := some final, ret := some final, exn := none }

/-- `QuakeQuery.query_predefined` (lines 119-128): look the name up in the
static `quakes` table; on a hit delegate to `query` with that window, on a
miss log an error and implicitly return `None` without touching anything. -/
noncomputable def query_predefined (cfg : QueryConfig) (name : String)
    (min_mag max_mag : ℤ) (nowStr : String) (net : HttpOutcome)
    (old : Option (List EventRow)) : QueryOutcome :=
  match quakes.lookup name with
  | some se => query cfg se.1 se.2 min_mag max_mag nowStr net old
  | none =>
      { logs := [.error (name ++ " not in list of predefined earthquakes")],
        requests := 0, sentParams := [], data := old, ret := none, exn := none }

/-! ## Theorems -/

/-- C2: when the HTTP GET raises a transport error, the exception is logged,
`self.data` keeps its previous value (no partial result), nothing is
returned to the caller, and the call aborts (here via the uncaught
`NameError` on the unbound response variable): no parsing and no derived
columns happen. -/
theorem query_transport_error_aborts (cfg : QueryConfig)
    (start_date end_date : String) (min_mag max_mag : ℤ) (nowStr e : String)
    (old : Option (List EventRow)) :
    (query cfg start_date end_date min_mag max_mag nowStr (.raise e) old).logs
        = [.error e] ∧
    (query cfg start_date end_date min_mag max_mag nowStr (.raise e) old).data
        = old ∧
    (query cfg start_date end_date min_mag max_mag nowStr (.raise e) old).ret
        = none ∧
    (query cfg start_date end_date min_mag max_mag nowStr (.raise e) old).exn
        = some "NameError" :=
  ⟨rfl, rfl, rfl, rfl⟩

/-- C5, counterexample: the claim says `Timestamp` is obtained by truncation
of the sub-second part, but the code floor-divides the nanosecond count;
for the pre-epoch instant 1969-12-31T23:59:59.500Z (nanoseconds equal to
-500000000) the code yields -1 while truncation yields 0. -/
theorem timestamp_not_truncation :
    timestampOfDateTime (-500000000) = -1 ∧
    truncatedUnixSeconds (-500000000) = 0 ∧
    timestampOfDateTime (-500000000) ≠ truncatedUnixSeconds (-500000000) := by
  refine ⟨by decide, by decide, by decide⟩

/-- C5, amended: the derived `Timestamp` is the floor (not the truncation)
of the DateTime's Unix seconds; for every row whose DateTime is at or after
the Unix epoch the two agree, so there the claim holds as stated. -/
theorem timestamp_truncates_for_nonneg_datetime (cfg : QueryConfig)
    (r : RawRow) (h : 0 ≤ r.Time) :
    (addColumns cfg r).Timestamp = truncatedUnixSeconds r.Time := by
  show timestampOfDateTime r.Time = truncatedUnixSeconds r.Time
  unfold timestampOfDateTime truncatedUnixSeconds
  rw [Int.fdiv_eq_ediv _ (by norm_num), Int.tdiv_eq_ediv h (by norm_num)]

/-- C5, witness for the amended theorem at a concrete post-epoch row. -/
theorem timestamp_truncates_for_nonneg_datetime_witness :
    (0 : ℤ) ≤ 1500000000 ∧
    (addColumns ⟨0, 0, 1⟩
        ⟨0, 1500000000, 0, 0, 0, "", "", "", "", "", 0, "", ""⟩).Timestamp =
      truncatedUnixSeconds 1500000000 :=
  ⟨by decide,
   timestamp_truncates_for_nonneg_datetime ⟨0, 0, 1⟩
     ⟨0, 1500000000, 0, 0, 0, "", "", "", "", "", 0, "", ""⟩ (by decide)⟩

/-- C1: a row is in the sequence returned by `query` exactly when it is one
of the parsed rows (with derived columns) whose haversine distance to the
configured center is strictly below the radius; so every retained record has
distance below the radius and every dropped record has distance at or above
it. -/
theorem query_retains_iff_within_radius (cfg : QueryConfig)
    (rows : List RawRow) (e : EventRow) :
    e ∈ processRows cfg rows ↔
      e ∈ rows.map (addColumns cfg) ∧
        haversine_distance e.Latitude e.Longitude cfg.latitude cfg.longitude
          < cfg.radius := by
  unfold processRows cut_on_radius
  rw [List.mem_filter]
  constructor
  · rintro ⟨hm, hd⟩
    refine ⟨hm, ?_⟩
    obtain ⟨r, hr, rfl⟩ := List.mem_map.mp hm
    exact of_decide_eq_true hd
  · rintro ⟨hm, hd⟩
    refine ⟨hm, ?_⟩
    obtain ⟨r, hr, rfl⟩ := List.mem_map.mp hm
    exact decide_eq_true hd

/-- C3: for a positive radius and a latitude strictly between -90 and 90
degrees, the bounding box strictly brackets the center on both axes. -/
theorem calc_bounding_box_brackets_center (cfg : QueryConfig)
    (hr : 0 < cfg.radius) (h1 : -90 < cfg.latitude) (h2 : cfg.latitude < 90) :
    (lat_range cfg).1 < cfg.latitude ∧ cfg.latitude < (lat_range cfg).2 ∧
    (lon_range cfg).1 < cfg.longitude ∧ cfg.longitude < (lon_range cfg).2 := by
  have hm : (0:ℝ) < m_per_deg := by norm_num [m_per_deg]
  have hd : 0 < cfg.radius / m_per_deg := div_pos hr hm
  have hp1 : 0 < Real.pi * (cfg.latitude + 90) :=
    mul_pos Real.pi_pos (by linarith)
  have hp2 : 0 < Real.pi * (90 - cfg.latitude) :=
    mul_pos Real.pi_pos (by linarith)
  have hcos : 0 < Real.cos (Real.pi * cfg.latitude / 180) := by
    apply Real.cos_pos_of_mem_Ioo
    constructor <;> nlinarith [hp1, hp2]
  have hd2 : 0 < cfg.radius / m_per_deg /
      Real.cos (Real.pi * cfg.latitude / 180) := div_pos hd hcos
  unfold lat_range lon_range calc_bounding_box
  dsimp only
  exact ⟨by linarith, by linarith, by linarith, by linarith⟩

/-- C3, witness at latitude 0, longitude 0, radius 1. -/
theorem calc_bounding_box_brackets_center_witness :
    (0:ℝ) < 1 ∧ (-90:ℝ) < 0 ∧ (0:ℝ) < 90 ∧
    ((lat_range ⟨0, 0, 1⟩).1 < 0 ∧ (0:ℝ) < (lat_range ⟨0, 0, 1⟩).2 ∧
     (lon_range ⟨0, 0, 1⟩).1 < 0 ∧ (0:ℝ) < (lon_range ⟨0, 0, 1⟩).2) :=
  ⟨by norm_num, by norm_num, by norm_num,
   calc_bounding_box_brackets_center ⟨0, 0, 1⟩
     (show (0:ℝ) < 1 by norm_num) (show (-90:ℝ) < 0 by norm_num)
     (show (0:ℝ) < 90 by norm_num)⟩

/-- C4: for a fixed center, the bounding box is monotone in the radius on
both axes: the latitude and longitude ranges for the smaller radius are
contained in those for the larger one. -/
theorem calc_bounding_box_monotone_radius (lat lon r1 r2 : ℝ)
    (hr1 : 0 < r1) (hr12 : r1 < r2) (h1 : -90 < lat) (h2 : lat < 90) :
    Set.Icc (lat_range ⟨lat, lon, r1⟩).1 (lat_range ⟨lat, lon, r1⟩).2 ⊆
      Set.Icc (lat_range ⟨lat, lon, r2⟩).1 (lat_range ⟨lat, lon, r2⟩).2 ∧
    Set.Icc (lon_range ⟨lat, lon, r1⟩).1 (lon_range ⟨lat, lon, r1⟩).2 ⊆
      Set.Icc (lon_range ⟨lat, lon, r2⟩).1 (lon_range ⟨lat, lon, r2⟩).2 := by
  have hm : (0:ℝ) < m_per_deg := by norm_num [m_per_deg]
  have hp1 : 0 < Real.pi * (lat + 90) := mul_pos Real.pi_pos (by linarith)
  have hp2 : 0 < Real.pi * (90 - lat) := mul_pos Real.pi_pos (by linarith)
  have hcos : 0 < Real.cos (Real.pi * lat / 180) := by
    apply Real.cos_pos_of_mem_Ioo
    constructor <;> nlinarith [hp1, hp2]
  have hdelta : r1 / m_per_deg < r2 / m_per_deg :=
    (div_lt_div_iff_of_pos_right hm).mpr hr12
  have hdelta2 : r1 / m_per_deg / Real.cos (Real.pi * lat / 180) <
      r2 / m_per_deg / Real.cos (Real.pi * lat / 180) :=
    (div_lt_div_iff_of_pos_right hcos).mpr hdelta
  unfold lat_range lon_range calc_bounding_box
  dsimp only
  constructor <;> exact Set.Icc_subset_Icc (by linarith) (by linarith)

/-- C4, witness at center (0, 0) with radii 1 < 2. -/
theorem calc_bounding_box_monotone_radius_witness :
    (0:ℝ) < 1 ∧ (1:ℝ) < 2 ∧ (-90:ℝ) < 0 ∧ (0:ℝ) < 90 ∧
    (Set.Icc (lat_range ⟨0, 0, 1⟩).1 (lat_range ⟨0, 0, 1⟩).2 ⊆
       Set.Icc (lat_range ⟨0, 0, 2⟩).1 (lat_range ⟨0, 0, 2⟩).2 ∧
     Set.Icc (lon_range ⟨0, 0, 1⟩).1 (lon_range ⟨0, 0, 1⟩).2 ⊆
       Set.Icc (lon_range ⟨0, 0, 2⟩).1 (lon_range ⟨0, 0, 2⟩).2) :=
  ⟨by norm_num, by norm_num, by norm_num, by norm_num,
   calc_bounding_box_monotone_radius 0 0 1 2
     (show (0:ℝ) < 1 by norm_num) (show (1:ℝ) < 2 by norm_num)
     (show (-90:ℝ) < 0 by norm_num) (show (0:ℝ) < 90 by norm_num)⟩

/-- C6: the distance filter is idempotent: reapplying the radius cut to an
already-cut sequence returns the same sequence. -/
theorem cut_on_radius_idempotent (radius : ℝ) (l : List EventRow) :
    cut_on_radius radius (cut_on_radius radius l) = cut_on_radius radius l := by
  unfold cut_on_radius
  rw [List.filter_filter]
  simp

/-- C10: the sequence returned by `query` is a sublist (same relative order,
nothing reordered) of the parsed rows, with the derived columns added. -/
theorem processRows_sublist_of_parsed (cfg : QueryConfig) (rows : List RawRow) :
    List.Sublist (processRows cfg rows) (rows.map (addColumns cfg)) := by
  unfold processRows cut_on_radius
  exact List.filter_sublist _

/-- C7: for a name outside the predefined table, `query_predefined` logs an
error, issues no HTTP request, leaves `self.data` untouched, and returns
nothing, without raising. -/
theorem query_predefined_unknown_name (cfg : QueryConfig) (name : String)
    (min_mag max_mag : ℤ) (nowStr : String) (net : HttpOutcome)
    (old : Option (List EventRow)) (h : quakes.lookup name = none) :
    query_predefined cfg name min_mag max_mag nowStr net old =
      { logs := [.error (name ++ " not in list of predefined earthquakes")],
        requests := 0, sentParams := [], data := old, ret := none,
        exn := none } := by
  unfold query_predefined
  rw [h]

/-- C7, witness at the spec's example name. -/
theorem query_predefined_unknown_name_witness :
    quakes.lookup "not_a_real_event" = none ∧
    query_predefined ⟨0, 0, 1⟩ "not_a_real_event" 2 10 "" (.raise "boom") none =
      { logs := [.error ("not_a_real_event" ++
          " not in list of predefined earthquakes")],
        requests := 0, sentParams := [], data := none, ret := none,
        exn := none } :=
  ⟨by decide,
   query_predefined_unknown_name ⟨0, 0, 1⟩ "not_a_real_event" 2 10 ""
     (.raise "boom") none (by decide)⟩

/-- C8: every `query` call sends exactly the fourteen documented parameters:
starttime, endtime (resolved when it is the literal "now"), minmag (default
2), maxmag (default 10), mindepth -10, maxdepth 1000, the bounding box
formatted to three decimal places, minversion 100, orderby time-asc, format
text, and limit 10000. -/
theorem query_sends_exactly_documented_params (cfg : QueryConfig)
    (start_date end_date : String) (min_mag max_mag : ℤ) (nowStr : String)
    (net : HttpOutcome) (old : Option (List EventRow)) :
    (query cfg start_date end_date min_mag max_mag nowStr net old).sentParams =
        payload start_date (if end_date = "now" then nowStr else end_date)
          min_mag max_mag (lat_range cfg) (lon_range cfg) ∧
    min_mag_default = 2 ∧ max_mag_default = 10 ∧
    ∀ (st en : String) (mm mM : ℤ) (latr lonr : ℝ × ℝ),
      (payload st en mm mM latr lonr).map Prod.fst =
          ["starttime", "endtime", "minmag", "maxmag", "mindepth", "maxdepth",
           "minlat", "maxlat", "minlon", "maxlon", "minversion", "orderby",
           "format", "limit"] ∧
      (payload st en mm mM latr lonr).lookup "starttime" = some (.str st) ∧
      (payload st en mm mM latr lonr).lookup "endtime" = some (.str en) ∧
      (payload st en mm mM latr lonr).lookup "minmag" = some (.int mm) ∧
      (payload st en mm mM latr lonr).lookup "maxmag" = some (.int mM) ∧
      (payload st en mm mM latr lonr).lookup "mindepth" = some (.int (-10)) ∧
      (payload st en mm mM latr lonr).lookup "maxdepth" = some (.int 1000) ∧
      (payload st en mm mM latr lonr).lookup "minlat" =
          some (.str (fmt3 latr.1)) ∧
      (payload st en mm mM latr lonr).lookup "maxlat" =
          some (.str (fmt3 latr.2)) ∧
      (payload st en mm mM latr lonr).lookup "minlon" =
          some (.str (fmt3 lonr.1)) ∧
      (payload st en mm mM latr lonr).lookup "maxlon" =
          some (.str (fmt3 lonr.2)) ∧
      (payload st en mm mM latr lonr).lookup "minversion" = some (.int 100) ∧
      (payload st en mm mM latr lonr).lookup "orderby" =
          some (.str "time-asc") ∧
      (payload st en mm mM latr lonr).lookup "format" = some (.str "text") ∧
      (payload st en mm mM latr lonr).lookup "limit" = some (.int 10000) := by
  refine ⟨?_, rfl, rfl, ?_⟩
  · cases net with
    | raise e => rfl
    | response status rows =>
      unfold query
      dsimp only
      split <;> rfl
  · intro st en mm mM latr lonr
    exact ⟨rfl, rfl, rfl, rfl, rfl, rfl, rfl, rfl, rfl, rfl, rfl, rfl, rfl,
      rfl, rfl⟩

/-- C9: on a non-200 status, `query` leaves the stored `self.data` exactly
as it was (the error branch performs no assignment) and returns an absent
value. -/
theorem query_service_error_preserves_data (cfg : QueryConfig)
    (start_date end_date : String) (min_mag max_mag : ℤ) (nowStr : String)
    (status : ℕ) (rows : List RawRow) (old : Option (List EventRow))
    (h : status ≠ 200) :
    (query cfg start_date end_date min_mag max_mag nowStr
        (.response status rows) old).data = old ∧
    (query cfg start_date end_date min_mag max_mag nowStr
        (.response status rows) old).ret = none := by
  unfold query
  dsimp only
  rw [if_pos h]
  exact ⟨rfl, rfl⟩

/-- C9, witness at status 404. -/
theorem query_service_error_preserves_data_witness :
    (404 : ℕ) ≠ 200 ∧
    ((query ⟨0, 0, 1⟩ "a" "b" 2 10 "" (.response 404 []) none).data = none ∧
     (query ⟨0, 0, 1⟩ "a" "b" 2 10 "" (.response 404 []) none).ret = none) :=
  ⟨by decide,
   query_service_error_preserves_data ⟨0, 0, 1⟩ "a" "b" 2 10 "" 404 [] none
     (by decide)⟩

end QuakeQuery
